import Mathlib

/-!
Shallow embedding of the WasmEdge function-call executor core
(src/lib/executor/helper.cpp) and the command-line driver logic
(src/tools/wasmedge/wasmedger.cpp).

The executor operations (enterFunction, getBlockArity, branchToLabel, and the
five instance lookups) are translated from helper.cpp.  The stack manager,
statistics collector, store, and execution context are collaborators whose
code is outside the given sources; they are modelled from the specification
(spec.md sections 3, 4.5, 4.6, 4.7) as noted on each definition.

Stacks are lists with the head as the top of the stack.  Program counters
(instruction iterators in the C++ code) are modelled as integers.
-/

namespace WasmEdge


/-- Error codes surfaced by the core (spec.md section 7, common/errcode.h). -/
inductive ErrCode
  | Success
  | Terminated
  | CostLimitExceeded
  | ExecutionFailed
  | MemoryOutOfBounds
  | DivideByZero
  | IntegerOverflow
  | InvalidConversion
  | Unreachable
  | CallIndirectTypeMismatch
  | UninitializedElement
  | InstanceNotFound
  deriving DecidableEq

/-- Wasm value types; TNone stands for the C++ ValType::None. -/
inductive ValType
  | I32
  | I64
  | F32
  | F64
  | FuncRef
  | ExternRef
  | TNone
  deriving DecidableEq

/-- Tagged operand value (C++ ValVariant).  Numeric payloads are kept as
natural numbers holding the unsigned bit pattern; references hold an optional
address. -/
inductive ValVariant
  | I32 (v : Nat)
  | I64 (v : Nat)
  | F32 (bits : Nat)
  | F64 (bits : Nat)
  | FuncRef (r : Option Nat)
  | ExternRef (r : Option Nat)
  deriving DecidableEq

/-- Zero value of a given value type (C++ ValueFromType). -/
def ValueFromType : ValType → ValVariant
  | ValType.I32 => ValVariant.I32 0
  | ValType.I64 => ValVariant.I64 0
  | ValType.F32 => ValVariant.F32 0
  | ValType.F64 => ValVariant.F64 0
  | ValType.FuncRef => ValVariant.FuncRef none
  | ValType.ExternRef => ValVariant.ExternRef none
  | ValType.TNone => ValVariant.I32 0

/-- Function signature: parameter and result types. -/
structure FuncType where
  params : List ValType
  results : List ValType
  deriving DecidableEq

/-- A block type is either a direct value type or an index into the type
section of the active module. -/
inductive BlockType
  | valType (t : ValType)
  | typeIdx (i : Nat)
  deriving DecidableEq

/-- An instruction, reduced to the payload the core inspects: its block type
(used when re-entering a loop label). -/
structure Instr where
  blockType : BlockType
  deriving DecidableEq

/-- Table instance handle. -/
structure TableInstance where
  id : Nat
  deriving DecidableEq

/-- Memory instance handle. -/
structure MemoryInstance where
  id : Nat
  deriving DecidableEq

/-- Global instance handle. -/
structure GlobalInstance where
  id : Nat
  deriving DecidableEq

/-- Element instance handle. -/
structure ElementInstance where
  id : Nat
  deriving DecidableEq

/-- Data instance handle. -/
structure DataInstance where
  id : Nat
  deriving DecidableEq

/-- Modelled from the spec (section 3, Module Instance): mappings from local
index spaces to store addresses, the type section, and for AOT use the raw
memory base pointer and globals array. -/
structure ModuleInstance where
  funcTypes : List FuncType
  tableAddrs : List Nat
  memAddrs : List Nat
  globalAddrs : List Nat
  elemAddrs : List Nat
  dataAddrs : List Nat
  memoryPtr : Option Nat
  globalsPtr : List Nat
  deriving DecidableEq

def defaultModule : ModuleInstance :=
  { funcTypes := [], tableAddrs := [], memAddrs := [], globalAddrs := [],
    elemAddrs := [], dataAddrs := [], memoryPtr := none, globalsPtr := [] }

def defaultFuncType : FuncType := { params := [], results := [] }

def ModuleInstance.getFuncTypeAt (m : ModuleInstance) (i : Nat) : Option FuncType :=
  m.funcTypes.get? i

def ModuleInstance.getTableAddr (m : ModuleInstance) (i : Nat) : Option Nat :=
  m.tableAddrs.get? i

def ModuleInstance.getMemAddr (m : ModuleInstance) (i : Nat) : Option Nat :=
  m.memAddrs.get? i

def ModuleInstance.getGlobalAddr (m : ModuleInstance) (i : Nat) : Option Nat :=
  m.globalAddrs.get? i

def ModuleInstance.getElemAddr (m : ModuleInstance) (i : Nat) : Option Nat :=
  m.elemAddrs.get? i

def ModuleInstance.getDataAddr (m : ModuleInstance) (i : Nat) : Option Nat :=
  m.dataAddrs.get? i

/-- Modelled from the spec (section 3, Store): flat address tables, one per
resource kind, keyed by opaque addresses. -/
structure StoreManager where
  modules : List ModuleInstance
  tables : List TableInstance
  memories : List MemoryInstance
  globalInsts : List GlobalInstance
  elements : List ElementInstance
  datas : List DataInstance
  deriving DecidableEq

def StoreManager.getModule (s : StoreManager) (addr : Nat) : Option ModuleInstance :=
  s.modules.get? addr

def StoreManager.getTable (s : StoreManager) (addr : Nat) : Option TableInstance :=
  s.tables.get? addr

def StoreManager.getMemory (s : StoreManager) (addr : Nat) : Option MemoryInstance :=
  s.memories.get? addr

def StoreManager.getGlobal (s : StoreManager) (addr : Nat) : Option GlobalInstance :=
  s.globalInsts.get? addr

def StoreManager.getElement (s : StoreManager) (addr : Nat) : Option ElementInstance :=
  s.elements.get? addr

def StoreManager.getData (s : StoreManager) (addr : Nat) : Option DataInstance :=
  s.datas.get? addr

/-- Modelled from the spec (section 3, Label): arity on entry, arity on exit,
continuation PC (the value returned when the label is popped), the optional
loop-body PC (set iff the label guards a loop), and the saved operand-stack
height (height at push minus the entry arity). -/
structure Label where
  arityEntry : Nat
  arityExit : Nat
  target : Int
  loopCont : Option Int
  savedValHeight : Nat
  deriving DecidableEq

def defaultLabel : Label :=
  { arityEntry := 0, arityExit := 0, target := 0, loopCont := none,
    savedValHeight := 0 }

/-- Modelled from the spec (section 3, Frame): owning module address (nil for
the sentinel frame), local count, return arity, tail-call flag, and the saved
operand- and label-stack heights. -/
structure Frame where
  moduleAddr : Option Nat
  localsN : Nat
  arity : Nat
  isTailCall : Bool
  savedValHeight : Nat
  savedLabHeight : Nat
  deriving DecidableEq

/-- The sentinel (dummy) frame sitting at the bottom of the frame stack. -/
def sentinelFrame : Frame :=
  { moduleAddr := none, localsN := 0, arity := 0, isTailCall := false,
    savedValHeight := 0, savedLabHeight := 0 }

/-- Modelled from the spec (section 3): the three stacks managed by the stack
manager.  Heads of the lists are the stack tops. -/
structure StackManager where
  valueStack : List ValVariant
  labelStack : List Label
  frameStack : List Frame
  deriving DecidableEq

/-- Modelled from the spec: push one operand value. -/
def push (v : ValVariant) (sm : StackManager) : StackManager :=
  { sm with valueStack := v :: sm.valueStack }

/-- Modelled from the spec (section 4.4): pop the top n operand values into a
vector in call order (deepest popped value first). -/
def popTopN (n : Nat) (sm : StackManager) : List ValVariant × StackManager :=
  ((sm.valueStack.take n).reverse,
   { sm with valueStack := sm.valueStack.drop n })

/-- Modelled from the spec (sections 3 and 4.3): push a label recording both
arities, the continuation PC, the optional loop-body PC, and the saved
operand height (current height minus the entry arity). -/
def pushLabel (entryA exitA : Nat) (target : Int) (loopCont : Option Int)
    (sm : StackManager) : StackManager :=
  { sm with labelStack :=
      { arityEntry := entryA, arityExit := exitA, target := target,
        loopCont := loopCont,
        savedValHeight := sm.valueStack.length - entryA } :: sm.labelStack }

/-- Modelled from the spec (section 4.4 step 1): push a frame recording the
owning module, argument and return counts, and the tail-call flag.  For a
tail call the saved heights are inherited from the caller frame and the
caller frame is replaced, so that return retires it as well (sections 4.4 and
4.7, and testable property 5). -/
def pushFrame (modAddr : Nat) (argsN retsN : Nat) (isTailCall : Bool)
    (sm : StackManager) : StackManager :=
  if isTailCall then
    let caller := sm.frameStack.headD sentinelFrame
    { sm with frameStack :=
        { moduleAddr := some modAddr, localsN := argsN, arity := retsN,
          isTailCall := true, savedValHeight := caller.savedValHeight,
          savedLabHeight := caller.savedLabHeight } :: sm.frameStack.tail }
  else
    { sm with frameStack :=
        { moduleAddr := some modAddr, localsN := argsN, arity := retsN,
          isTailCall := false,
          savedValHeight := sm.valueStack.length - argsN,
          savedLabHeight := sm.labelStack.length } :: sm.frameStack }

/-- Modelled from the spec (section 4.3 step 2): pop cnt labels.  The target
label is the deepest popped one; preserve the top k operand values (k is the
entry arity for a loop label, the exit arity otherwise), discard the values
between them and the saved height of the target label, and return the
continuation PC of the target label. -/
def popLabel (cnt : Nat) (sm : StackManager) : Int × StackManager :=
  let l := (sm.labelStack.get? (cnt - 1)).getD defaultLabel
  let k := match l.loopCont with
    | some _ => l.arityEntry
    | none => l.arityExit
  let vals :=
    if sm.valueStack.length - l.savedValHeight > k then
      sm.valueStack.take k ++
        sm.valueStack.drop (sm.valueStack.length - l.savedValHeight)
    else sm.valueStack
  (l.target, { sm with valueStack := vals, labelStack := sm.labelStack.drop cnt })

/-- Modelled from the spec (section 4.3 step 1): read the label at the given
depth from the top of the label stack. -/
def getLabelWithCount (cnt : Nat) (sm : StackManager) : Label :=
  (sm.labelStack.get? cnt).getD defaultLabel

/-- Modelled from the spec (section 4.7 and the frame state machine): pop the
top frame; pop the labels above its saved label height, returning the
continuation PC recorded by the deepest popped (boundary) label; free the
operand values above the saved operand height, keeping at most the declared
arity. -/
def popFrame (sm : StackManager) : Int × StackManager :=
  let f := sm.frameStack.headD sentinelFrame
  let c := sm.labelStack.length - f.savedLabHeight
  let ret := ((sm.labelStack.get? (c - 1)).map (fun l => l.target)).getD 0
  let vals :=
    if sm.valueStack.length - f.savedValHeight > f.arity then
      sm.valueStack.take f.arity ++
        sm.valueStack.drop (sm.valueStack.length - f.savedValHeight)
    else sm.valueStack
  (ret,
   { valueStack := vals, labelStack := sm.labelStack.drop c,
     frameStack := sm.frameStack.tail })

/-- Modelled from the spec (section 3, invariants): the sentinel frame is the
one whose owning module is nil. -/
def isTopDummyFrame (sm : StackManager) : Bool :=
  match sm.frameStack with
  | [] => true
  | f :: _ => f.moduleAddr.isNone

/-- Modelled from the spec (section 4.1 step 2): module address of the active
frame. -/
def getModuleAddr (sm : StackManager) : Nat :=
  ((sm.frameStack.headD sentinelFrame).moduleAddr).getD 0

/-- Modelled from the spec (section 4.6): the metering collector with a cost
counter and the wasm/host timer pair. -/
structure Statistics where
  costLimit : Nat
  costSum : Nat
  wasmTimerOn : Bool
  hostTimerOn : Bool
  deriving DecidableEq

/-- Modelled from the spec (section 4.6): charge a cost; none on overflow of
the configured limit. -/
def addCost (st : Statistics) (cost : Nat) : Option Statistics :=
  if st.costSum + cost ≤ st.costLimit then
    some { st with costSum := st.costSum + cost }
  else none

/-- Modelled from the spec (section 4.5): the execution context exposing the
memory base and the globals array to compiled code. -/
structure ExecContext where
  memory : Option Nat
  globals : List Nat
  deriving DecidableEq

/-- Host function payload: a declared cost and the opaque callable, which
receives the current memory handle and the argument vector and either fails
or fills the result vector (spec.md section 3, Function Instance). -/
structure HostFuncT where
  cost : Nat
  run : Option MemoryInstance → List ValVariant →
    Except ErrCode (List ValVariant)

/-- The three function kinds (spec.md section 3, Function Instance).  For a
compiled function the trampoline receives the execution context, the entry
symbol, and the argument buffer, and yields a fault status together with the
filled result buffer; the buffer has a fixed size, so it is read back slot by
slot.  For a native function the payload is the local declarations and the PC
of the first body instruction. -/
inductive FuncKind
  | host (hf : HostFuncT)
  | compiled (entry : Nat)
      (wrapper : ExecContext → Nat → List ValVariant →
        ErrCode × (Nat → ValVariant))
  | native (localDecls : List (Nat × ValType)) (bodyBegin : Int)

/-- A function instance: signature, owning module address, and kind-specific
payload. -/
structure FunctionInstance where
  funcType : FuncType
  moduleAddr : Nat
  kind : FuncKind

/-- The executor state threaded through enterFunction: the stack manager, the
optional statistics collector, the execution context, the process-wide
current-store pointer, and the log sink (list of logged error codes, newest
first). -/
structure ExecutorState where
  stackMgr : StackManager
  stat : Option Statistics
  executionContext : ExecContext
  currentStore : Option StoreManager
  log : List ErrCode

/-- Translated from Executor::getTabInstByIdx (helper.cpp lines 197-215). -/
def getTabInstByIdx (store : StoreManager) (idx : Nat) (sm : StackManager) :
    Option TableInstance :=
  if isTopDummyFrame sm then none
  else
    match store.getModule (getModuleAddr sm) with
    | none => none
    | some m =>
      match m.getTableAddr idx with
      | none => none
      | some addr => store.getTable addr

/-- Translated from Executor::getMemInstByIdx (helper.cpp lines 217-235). -/
def getMemInstByIdx (store : StoreManager) (idx : Nat) (sm : StackManager) :
    Option MemoryInstance :=
  if isTopDummyFrame sm then none
  else
    match store.getModule (getModuleAddr sm) with
    | none => none
    | some m =>
      match m.getMemAddr idx with
      | none => none
      | some addr => store.getMemory addr

/-- Translated from Executor::getGlobInstByIdx (helper.cpp lines 237-256). -/
def getGlobInstByIdx (store : StoreManager) (idx : Nat) (sm : StackManager) :
    Option GlobalInstance :=
  if isTopDummyFrame sm then none
  else
    match store.getModule (getModuleAddr sm) with
    | none => none
    | some m =>
      match m.getGlobalAddr idx with
      | none => none
      | some addr => store.getGlobal addr

/-- Translated from Executor::getElemInstByIdx (helper.cpp lines 258-277). -/
def getElemInstByIdx (store : StoreManager) (idx : Nat) (sm : StackManager) :
    Option ElementInstance :=
  if isTopDummyFrame sm then none
  else
    match store.getModule (getModuleAddr sm) with
    | none => none
    | some m =>
      match m.getElemAddr idx with
      | none => none
      | some addr => store.getElement addr

/-- Translated from Executor::getDataInstByIdx (helper.cpp lines 279-298). -/
def getDataInstByIdx (store : StoreManager) (idx : Nat) (sm : StackManager) :
    Option DataInstance :=
  if isTopDummyFrame sm then none
  else
    match store.getModule (getModuleAddr sm) with
    | none => none
    | some m =>
      match m.getDataAddr idx with
      | none => none
      | some addr => store.getData addr

/-- Translated from Executor::getBlockArity (helper.cpp lines 158-172).  The
unchecked C++ dereferences of the module and type lookups are modelled by
default values; callers maintain the invariant that they exist. -/
def getBlockArity (store : StoreManager) (sm : StackManager) (bt : BlockType) :
    Nat × Nat :=
  match bt with
  | BlockType.valType t => (0, if t = ValType.TNone then 0 else 1)
  | BlockType.typeIdx i =>
    let m := (store.getModule (getModuleAddr sm)).getD defaultModule
    let ft := (m.getFuncTypeAt i).getD defaultFuncType
    (ft.params.length, ft.results.length)

/-- The statistics steps of the host-call path of Executor::enterFunction
(helper.cpp lines 50-59): if a collector is attached, charge the declared
cost (CostLimitExceeded on overflow) and switch the timers from wasm to
host. -/
def chargeHost (stat : Option Statistics) (cost : Nat) :
    Except ErrCode (Option Statistics) :=
  match stat with
  | none => Except.ok none
  | some st =>
    match addCost st cost with
    | none => Except.error ErrCode.CostLimitExceeded
    | some st1 =>
      Except.ok (some { st1 with wasmTimerOn := false, hostTimerOn := true })

/-- Timer restore after a host call (helper.cpp lines 67-71). -/
def restoreWasmTimer (stat : Option Statistics) : Option Statistics :=
  stat.map (fun st => { st with hostTimerOn := false, wasmTimerOn := true })

/-- Translated from Executor::enterFunction (helper.cpp lines 11-156).
Returns the updated executor state and either the next PC or a trap. -/
def enterFunction (store : StoreManager) (func : FunctionInstance)
    (backPos : Int) (isTailCall : Bool) (es : ExecutorState) :
    ExecutorState × Except ErrCode Int :=
  let argsN := func.funcType.params.length
  let retsN := func.funcType.results.length
  let sm0 := pushFrame func.moduleAddr argsN retsN isTailCall es.stackMgr
  match func.kind with
  | FuncKind.host hf =>
    let sm1 := pushLabel 0 retsN backPos none sm0
    let memInst := getMemInstByIdx store 0 sm1
    match chargeHost es.stat hf.cost with
    | Except.error e =>
      ({ es with stackMgr := sm1, log := e :: es.log }, Except.error e)
    | Except.ok stat1 =>
      let p := popTopN argsN sm1
      match hf.run memInst p.1 with
      | Except.error e =>
        let stat2 := restoreWasmTimer stat1
        if e = ErrCode.ExecutionFailed then
          ({ es with stackMgr := p.2, stat := stat2, log := e :: es.log },
           Except.error e)
        else
          ({ es with stackMgr := p.2, stat := stat2 }, Except.error e)
      | Except.ok rets =>
        let stat2 := restoreWasmTimer stat1
        let sm2 := rets.foldl (fun s r => push r s) p.2
        let pf := popFrame sm2
        ({ es with stackMgr := pf.2, stat := stat2 }, Except.ok pf.1)
  | FuncKind.compiled entry wrapper =>
    let sm1 := pushLabel 0 retsN backPos none sm0
    let p := popTopN argsN sm1
    let m := (store.getModule func.moduleAddr).getD defaultModule
    let ctx : ExecContext := { memory := m.memoryPtr, globals := m.globalsPtr }
    let es1 := { es with currentStore := some store, executionContext := ctx }
    let w := wrapper ctx entry p.1
    if w.1 = ErrCode.Success then
      let rets := (List.range retsN).map w.2
      let sm2 := rets.foldl (fun s r => push r s) p.2
      let pf := popFrame sm2
      ({ es1 with stackMgr := pf.2 }, Except.ok pf.1)
    else if w.1 = ErrCode.Terminated then
      ({ es1 with stackMgr := p.2 }, Except.error w.1)
    else
      ({ es1 with stackMgr := p.2, log := w.1 :: es.log }, Except.error w.1)
  | FuncKind.native localDecls bodyBegin =>
    let sm1 := localDecls.foldl
      (fun s d =>
        (List.replicate d.1 (ValueFromType d.2)).foldl
          (fun s2 v => push v s2) s) sm0
    let sm2 := pushLabel 0 retsN (backPos - 1) none sm1
    ({ es with stackMgr := sm2 }, Except.ok bodyBegin)

/-- Translated from Executor::branchToLabel (helper.cpp lines 174-195).  The
code argument maps a PC to the instruction it designates (the C++ iterator
dereference).  The C++ function always returns success, so only the new
stack-manager state and the new PC are produced. -/
def branchToLabel (store : StoreManager) (code : Int → Instr) (cnt : Nat)
    (sm : StackManager) : StackManager × Int :=
  let contIt := (getLabelWithCount cnt sm).loopCont
  let p := popLabel (cnt + 1) sm
  match contIt with
  | none => (p.2, p.1)
  | some loopPos =>
    let blockSig := getBlockArity store p.2 (code loopPos).blockType
    let sm2 := pushLabel blockSig.1 blockSig.1 p.1 (some loopPos) p.2
    (sm2, loopPos)

/-- Flattened zero-initialized locals of a native function, in declaration
and push order (helper.cpp lines 137-142). -/
def localZeros : List (Nat × ValType) → List ValVariant
  | [] => []
  | d :: ds => List.replicate d.1 (ValueFromType d.2) ++ localZeros ds

/-- POSIX failure exit status used by the driver. -/
def EXIT_FAILURE : Nat := 1

/-- Translated from the command mode of main (wasmedger.cpp lines 129-136):
if running the wasm file succeeds or fails with exactly Terminated, exit
with the configured WASI exit code, otherwise with EXIT_FAILURE. -/
def commandModeExitCode (result : Except ErrCode (List ValVariant))
    (wasiExitCode : Nat) : Nat :=
  match result with
  | Except.ok _ => wasiExitCode
  | Except.error e =>
    if e = ErrCode.Terminated then wasiExitCode else EXIT_FAILURE

/-- Unsigned 32-bit truncation of a signed parse result. -/
def toU32 (i : Int) : Nat := (i % (2 ^ 32 : Int)).toNat

/-- Unsigned 64-bit truncation of a signed parse result. -/
def toU64 (i : Int) : Nat := (i % (2 ^ 64 : Int)).toNat

/-- Translated from the first reactor-mode argument loop (wasmedger.cpp lines
177-208): for each declared parameter position with an available argument
(argument i+1, since argument 0 is the function name), parse per the declared
type and append the value and its type; reference types append nothing.  The
parse functions stol and stoll model the signed integer parses, stof and stod
the floating-point parses (yielding the stored bit patterns). -/
def reactorFirst (stol stoll : String → Int) (stof stod : String → Nat)
    (ps : List ValType) (args : List String) : List (ValVariant × ValType) :=
  (List.range (min ps.length (args.length - 1))).foldl
    (fun acc i =>
      match ps.getD i ValType.TNone with
      | ValType.I32 =>
        acc ++ [(ValVariant.I32 (toU32 (stol (args.getD (i + 1) ""))), ValType.I32)]
      | ValType.I64 =>
        acc ++ [(ValVariant.I64 (toU64 (stoll (args.getD (i + 1) ""))), ValType.I64)]
      | ValType.F32 =>
        acc ++ [(ValVariant.F32 (stof (args.getD (i + 1) "")), ValType.F32)]
      | ValType.F64 =>
        acc ++ [(ValVariant.F64 (stod (args.getD (i + 1) "")), ValType.F64)]
      | _ => acc) []

/-- Translated from the second reactor-mode argument loop (wasmedger.cpp
lines 209-216): for every argument position beyond the declared parameter
count, parse with stoll (signed 64-bit) and append the value with declared
type F64. -/
def reactorExtra (stoll : String → Int) (ps : List ValType)
    (args : List String) : List (ValVariant × ValType) :=
  (List.range' (ps.length + 1) (args.length - (ps.length + 1))).map
    (fun i => (ValVariant.I64 (toU64 (stoll (args.getD i ""))), ValType.F64))

/-- The argument and argument-type vectors passed to VM.execute in reactor
mode (wasmedger.cpp lines 175-218). -/
def buildReactorArgs (stol stoll : String → Int) (stof stod : String → Nat)
    (ps : List ValType) (args : List String) :
    List ValVariant × List ValType :=
  let all := reactorFirst stol stoll stof stod ps args ++ reactorExtra stoll ps args
  (all.map Prod.fst, all.map Prod.snd)

/-- An empty store used by concrete evaluations. -/
def emptyStore : StoreManager :=
  { modules := [], tables := [], memories := [], globalInsts := [],
    elements := [], datas := [] }

/-- A stack manager whose only frame is the sentinel frame. -/
def sentinelOnlySM : StackManager :=
  { valueStack := [], labelStack := [], frameStack := [sentinelFrame] }

/-- A store holding one module and one instance of each resource kind. -/
def storeC3 : StoreManager :=
  { modules := [defaultModule], tables := [⟨0⟩], memories := [⟨0⟩],
    globalInsts := [⟨0⟩], elements := [⟨0⟩], datas := [⟨0⟩] }

/-- The statistics state used by the metering witnesses: zero budget. -/
def statC2 : Statistics :=
  { costLimit := 0, costSum := 0, wasmTimerOn := true, hostTimerOn := false }

/-- Executor state for the claim C2 witness. -/
def esC2 : ExecutorState :=
  { stackMgr :=
      { valueStack := [ValVariant.I32 7], labelStack := [],
        frameStack := [sentinelFrame] },
    stat := some statC2,
    executionContext := { memory := none, globals := [] },
    currentStore := none, log := [] }

/-- Host function instance for the claim C4 counterexample. -/
def fnC4x : FunctionInstance :=
  ⟨⟨[ValType.I32], [ValType.I32]⟩, 0,
    FuncKind.host ⟨0, fun _ _ => Except.ok [ValVariant.I32 2]⟩⟩

/-- Executor state for the claim C4 counterexample: one caller frame whose
boundary label records continuation 99. -/
def esC4x : ExecutorState :=
  { stackMgr :=
      { valueStack := [ValVariant.I32 1],
        labelStack := [Label.mk 0 0 99 none 0],
        frameStack := [Frame.mk (some 0) 0 0 false 0 0] },
    stat := none,
    executionContext := { memory := none, globals := [] },
    currentStore := none, log := [] }

/-- Host function instance for the claim C4 witness: the S1 host-add
scenario. -/
def fnC4 : FunctionInstance :=
  ⟨⟨[ValType.I32, ValType.I32], [ValType.I32]⟩, 0,
    FuncKind.host ⟨0, fun _ _ => Except.ok [ValVariant.I32 12]⟩⟩

/-- Executor state for the claim C4 witness: operands 7 below, 5 on top. -/
def esC4 : ExecutorState :=
  { stackMgr :=
      { valueStack := [ValVariant.I32 5, ValVariant.I32 7], labelStack := [],
        frameStack := [sentinelFrame] },
    stat := none,
    executionContext := { memory := none, globals := [] },
    currentStore := none, log := [] }

/-- Host function instance for the claim C1 counterexample. -/
def fnC1x : FunctionInstance :=
  ⟨⟨[ValType.I32], [ValType.I32]⟩, 0,
    FuncKind.host ⟨0, fun _ _ => Except.ok [ValVariant.I32 3]⟩⟩

/-- Executor state for the claim C1 counterexample: two operands above the
saved height of the caller frame. -/
def esC1x : ExecutorState :=
  { stackMgr :=
      { valueStack := [ValVariant.I32 1, ValVariant.I32 2], labelStack := [],
        frameStack := [Frame.mk (some 0) 0 0 false 0 0] },
    stat := none,
    executionContext := { memory := none, globals := [] },
    currentStore := none, log := [] }

/-- Host function instance for the claim C1 witness. -/
def fnC1h : HostFuncT := ⟨0, fun _ _ => Except.ok [ValVariant.I32 8]⟩

/-- Executor state for the claim C1 witness. -/
def esC1 : ExecutorState :=
  { stackMgr :=
      { valueStack := [ValVariant.I32 4], labelStack := [],
        frameStack := [sentinelFrame] },
    stat := none,
    executionContext := { memory := none, globals := [] },
    currentStore := none, log := [] }

/-- Host function instance for the claim C7 counterexample: the callable
fails with MemoryOutOfBounds. -/
def fnC7x : FunctionInstance :=
  ⟨⟨[ValType.I32], []⟩, 0,
    FuncKind.host ⟨0, fun _ _ => Except.error ErrCode.MemoryOutOfBounds⟩⟩

/-- Executor state for the claim C7 counterexample, with an empty log. -/
def esC7x : ExecutorState :=
  { stackMgr :=
      { valueStack := [ValVariant.I32 1], labelStack := [],
        frameStack := [sentinelFrame] },
    stat := none,
    executionContext := { memory := none, globals := [] },
    currentStore := none, log := [] }

/-- Host function instance for the claim C7 witness: fails with
ExecutionFailed. -/
def fnC7 : HostFuncT := ⟨0, fun _ _ => Except.error ErrCode.ExecutionFailed⟩

/-- Trampoline for the claim C7 witness: reports the Unreachable fault. -/
def wrC7 : ExecContext → Nat → List ValVariant → ErrCode × (Nat → ValVariant) :=
  fun _ _ _ => (ErrCode.Unreachable, fun _ => ValVariant.I32 0)

/-- Module instance for the claim C8 witness, with a memory base pointer and
a globals array. -/
def modC8 : ModuleInstance :=
  { funcTypes := [], tableAddrs := [], memAddrs := [], globalAddrs := [],
    elemAddrs := [], dataAddrs := [], memoryPtr := some 77,
    globalsPtr := [4, 5] }

/-- Store for the claim C8 witness. -/
def storeC8 : StoreManager :=
  { modules := [modC8], tables := [], memories := [], globalInsts := [],
    elements := [], datas := [] }

/-- Trampoline for the claim C8 witness: faults with MemoryOutOfBounds. -/
def wrC8 : ExecContext → Nat → List ValVariant → ErrCode × (Nat → ValVariant) :=
  fun _ _ _ => (ErrCode.MemoryOutOfBounds, fun _ => ValVariant.I32 0)

/-- Executor state for the claim C8 witness. -/
def esC8 : ExecutorState :=
  { stackMgr :=
      { valueStack := [], labelStack := [], frameStack := [sentinelFrame] },
    stat := none,
    executionContext := { memory := none, globals := [] },
    currentStore := none, log := [] }

/-- Stack manager for the claim C5 witness: three operands and one loop
label of entry arity two, continuation 7, loop body at PC 3. -/
def smC5 : StackManager :=
  { valueStack := [ValVariant.I32 10, ValVariant.I32 11, ValVariant.I32 12],
    labelStack := [Label.mk 2 2 7 (some 3) 1],
    frameStack := [Frame.mk (some 0) 0 0 false 0 0] }

/-- Store for the claim C5 witness: module 0 declares type 0 as a function
from two i32 to one i64, so the loop entry arity is two. -/
def storeC5 : StoreManager :=
  { modules := [{ defaultModule with
      funcTypes := [⟨[ValType.I32, ValType.I32], [ValType.I64]⟩] }],
    tables := [], memories := [], globalInsts := [], elements := [],
    datas := [] }

/-- Code memory for the claim C5 witness: every PC holds a block whose type
is type index 0. -/
def codeC5 : Int → Instr := fun _ => ⟨BlockType.typeIdx 0⟩

/-! ## Lemmas and claim theorems -/

theorem pushAll_eq (l : List ValVariant) (sm : StackManager) :
    l.foldl (fun s v => push v s) sm =
      { valueStack := l.reverse ++ sm.valueStack, labelStack := sm.labelStack,
        frameStack := sm.frameStack } := by
  induction l generalizing sm with
  | nil => rfl
  | cons a t ih =>
    rw [List.foldl_cons, ih]
    simp [push]

theorem pushLocals_eq (ds : List (Nat × ValType)) (sm : StackManager) :
    ds.foldl
        (fun s d =>
          (List.replicate d.1 (ValueFromType d.2)).foldl
            (fun s2 v => push v s2) s) sm =
      { valueStack := (localZeros ds).reverse ++ sm.valueStack,
        labelStack := sm.labelStack, frameStack := sm.frameStack } := by
  induction ds generalizing sm with
  | nil => rfl
  | cons d t ih =>
    rw [List.foldl_cons, pushAll_eq, ih]
    simp [localZeros, List.reverse_append]

theorem popFrame_after_call (ma argsN retsN : Nat) (bp : Int) (h : Nat)
    (vs rets : List ValVariant) (labels : List Label) (frames : List Frame)
    (hr : rets.length = retsN) :
    popFrame
      { valueStack := rets.reverse ++ vs.drop argsN,
        labelStack := Label.mk 0 retsN bp none h :: labels,
        frameStack :=
          Frame.mk (some ma) argsN retsN false (vs.length - argsN)
            labels.length :: frames } =
      (bp,
       { valueStack := rets.reverse ++ vs.drop argsN, labelStack := labels,
         frameStack := frames }) := by
  unfold popFrame
  simp [hr, Nat.add_sub_cancel, Nat.add_sub_cancel_left]

theorem pushLabel_valueStack (e x : Nat) (t : Int) (lc : Option Int)
    (sm : StackManager) : (pushLabel e x t lc sm).valueStack = sm.valueStack :=
  rfl

theorem pushFrame_valueStack (ma a r : Nat) (tl : Bool) (sm : StackManager) :
    (pushFrame ma a r tl sm).valueStack = sm.valueStack := by
  cases tl <;> rfl

/-- Characterization of the host path of enterFunction when the charge
succeeds and the host callable succeeds. -/
theorem enterFunction_host_ok
    (store : StoreManager) (ft : FuncType) (ma : Nat) (hf : HostFuncT)
    (bp : Int) (es : ExecutorState) (stat1 : Option Statistics)
    (rets : List ValVariant)
    (hch : chargeHost es.stat hf.cost = Except.ok stat1)
    (hrun : hf.run
        (getMemInstByIdx store 0
          (pushLabel 0 ft.results.length bp none
            (pushFrame ma ft.params.length ft.results.length false es.stackMgr)))
        ((es.stackMgr.valueStack.take ft.params.length).reverse) =
      Except.ok rets)
    (hr : rets.length = ft.results.length) :
    enterFunction store ⟨ft, ma, FuncKind.host hf⟩ bp false es =
      ({ es with
          stackMgr :=
            { valueStack :=
                rets.reverse ++ es.stackMgr.valueStack.drop ft.params.length,
              labelStack := es.stackMgr.labelStack,
              frameStack := es.stackMgr.frameStack },
          stat := restoreWasmTimer stat1 },
       Except.ok bp) := by
  simp only [enterFunction]
  rw [hch]
  simp only [popTopN, pushLabel_valueStack, pushFrame_valueStack]
  rw [hrun]
  simp only [pushLabel, pushFrame, Bool.false_eq_true, if_false, pushAll_eq,
    Nat.sub_zero]
  rw [popFrame_after_call ma ft.params.length ft.results.length bp
    es.stackMgr.valueStack.length es.stackMgr.valueStack rets
    es.stackMgr.labelStack es.stackMgr.frameStack hr]

/-- Characterization of the host path of enterFunction when the metering
charge fails: the CostLimitExceeded trap is logged and returned, and the
operand stack is untouched (only a frame and a label were pushed). -/
theorem enterFunction_host_chargefail
    (store : StoreManager) (ft : FuncType) (ma : Nat) (hf : HostFuncT)
    (bp : Int) (tl : Bool) (es : ExecutorState) (st : Statistics)
    (hst : es.stat = some st) (hch : addCost st hf.cost = none) :
    enterFunction store ⟨ft, ma, FuncKind.host hf⟩ bp tl es =
      ({ es with
          stackMgr :=
            pushLabel 0 ft.results.length bp none
              (pushFrame ma ft.params.length ft.results.length tl es.stackMgr),
          log := ErrCode.CostLimitExceeded :: es.log },
       Except.error ErrCode.CostLimitExceeded) := by
  simp only [enterFunction, chargeHost, hst]
  rw [hch]

/-- Characterization of the host path of enterFunction when the host callable
fails: the error is surfaced as the trap, and it is logged exactly when it is
ExecutionFailed. -/
theorem enterFunction_host_err
    (store : StoreManager) (ft : FuncType) (ma : Nat) (hf : HostFuncT)
    (bp : Int) (tl : Bool) (es : ExecutorState) (stat1 : Option Statistics)
    (e : ErrCode)
    (hch : chargeHost es.stat hf.cost = Except.ok stat1)
    (hrun : hf.run
        (getMemInstByIdx store 0
          (pushLabel 0 ft.results.length bp none
            (pushFrame ma ft.params.length ft.results.length tl es.stackMgr)))
        ((es.stackMgr.valueStack.take ft.params.length).reverse) =
      Except.error e) :
    (enterFunction store ⟨ft, ma, FuncKind.host hf⟩ bp tl es).2 =
      Except.error e ∧
    (enterFunction store ⟨ft, ma, FuncKind.host hf⟩ bp tl es).1.log =
      (if e = ErrCode.ExecutionFailed then e :: es.log else es.log) := by
  simp only [enterFunction]
  rw [hch]
  simp only [popTopN, pushLabel_valueStack, pushFrame_valueStack]
  rw [hrun]
  by_cases he : e = ErrCode.ExecutionFailed
  · simp [he]
  · simp [he]

/-- Characterization of the compiled path of enterFunction when the
trampoline completes without a fault. -/
theorem enterFunction_compiled_ok
    (store : StoreManager) (ft : FuncType) (ma entry : Nat)
    (wrapper : ExecContext → Nat → List ValVariant →
      ErrCode × (Nat → ValVariant))
    (bp : Int) (es : ExecutorState) (f : Nat → ValVariant)
    (hw : wrapper
        { memory := ((store.getModule ma).getD defaultModule).memoryPtr,
          globals := ((store.getModule ma).getD defaultModule).globalsPtr }
        entry ((es.stackMgr.valueStack.take ft.params.length).reverse) =
      (ErrCode.Success, f)) :
    enterFunction store ⟨ft, ma, FuncKind.compiled entry wrapper⟩ bp false es =
      ({ es with
          stackMgr :=
            { valueStack :=
                ((List.range ft.results.length).map f).reverse ++
                  es.stackMgr.valueStack.drop ft.params.length,
              labelStack := es.stackMgr.labelStack,
              frameStack := es.stackMgr.frameStack },
          executionContext :=
            { memory := ((store.getModule ma).getD defaultModule).memoryPtr,
              globals := ((store.getModule ma).getD defaultModule).globalsPtr },
          currentStore := some store },
       Except.ok bp) := by
  simp only [enterFunction]
  simp only [popTopN, pushLabel_valueStack, pushFrame_valueStack]
  rw [hw]
  simp only [pushLabel, pushFrame, Bool.false_eq_true, if_false, pushAll_eq,
    Nat.sub_zero]
  rw [popFrame_after_call ma ft.params.length ft.results.length bp
    es.stackMgr.valueStack.length es.stackMgr.valueStack
    ((List.range ft.results.length).map f)
    es.stackMgr.labelStack es.stackMgr.frameStack (by simp)]
  simp

/-- Characterization of the compiled path of enterFunction when the fault
handler reports a non-success status. -/
theorem enterFunction_compiled_fault
    (store : StoreManager) (ft : FuncType) (ma entry : Nat)
    (wrapper : ExecContext → Nat → List ValVariant →
      ErrCode × (Nat → ValVariant))
    (bp : Int) (tl : Bool) (es : ExecutorState) (c : ErrCode)
    (f : Nat → ValVariant)
    (hw : wrapper
        { memory := ((store.getModule ma).getD defaultModule).memoryPtr,
          globals := ((store.getModule ma).getD defaultModule).globalsPtr }
        entry ((es.stackMgr.valueStack.take ft.params.length).reverse) =
      (c, f))
    (hc : c ≠ ErrCode.Success) :
    (enterFunction store ⟨ft, ma, FuncKind.compiled entry wrapper⟩ bp tl
        es).2 = Except.error c ∧
    (enterFunction store ⟨ft, ma, FuncKind.compiled entry wrapper⟩ bp tl
        es).1.log =
      (if c = ErrCode.Terminated then es.log else c :: es.log) ∧
    (enterFunction store ⟨ft, ma, FuncKind.compiled entry wrapper⟩ bp tl
        es).1.executionContext =
      { memory := ((store.getModule ma).getD defaultModule).memoryPtr,
        globals := ((store.getModule ma).getD defaultModule).globalsPtr } ∧
    (enterFunction store ⟨ft, ma, FuncKind.compiled entry wrapper⟩ bp tl
        es).1.currentStore = some store := by
  simp only [enterFunction]
  simp only [popTopN, pushLabel_valueStack, pushFrame_valueStack]
  rw [hw]
  by_cases ht : c = ErrCode.Terminated
  · simp [ht, hc]
  · simp [ht, hc]

theorem pushFrame_labelStack (ma a r : Nat) (tl : Bool) (sm : StackManager) :
    (pushFrame ma a r tl sm).labelStack = sm.labelStack := by
  cases tl <;> rfl

/-- Host path of enterFunction when the metering charge reports an error:
that error is the result. -/
theorem enterFunction_host_chargeErr
    (store : StoreManager) (ft : FuncType) (ma : Nat) (hf : HostFuncT)
    (bp : Int) (tl : Bool) (es : ExecutorState) (e : ErrCode)
    (hch : chargeHost es.stat hf.cost = Except.error e) :
    (enterFunction store ⟨ft, ma, FuncKind.host hf⟩ bp tl es).2 =
      Except.error e := by
  simp only [enterFunction]
  rw [hch]

/-- Claim C3: with the sentinel (dummy) frame on top of the frame stack, each
of the five instance lookups returns none, for every store and every index,
so neither the store nor the module index-space mapping is consulted. -/
theorem claim_C3_sentinel_lookups (sm : StackManager)
    (h : isTopDummyFrame sm = true) :
    ∀ (store : StoreManager) (idx : Nat),
      getTabInstByIdx store idx sm = none ∧
      getMemInstByIdx store idx sm = none ∧
      getGlobInstByIdx store idx sm = none ∧
      getElemInstByIdx store idx sm = none ∧
      getDataInstByIdx store idx sm = none := by
  intro store idx
  simp [getTabInstByIdx, getMemInstByIdx, getGlobInstByIdx, getElemInstByIdx,
    getDataInstByIdx, h]

theorem claim_C3_sentinel_lookups_witness :
    isTopDummyFrame sentinelOnlySM = true ∧
    (getTabInstByIdx storeC3 0 sentinelOnlySM = none ∧
      getMemInstByIdx storeC3 0 sentinelOnlySM = none ∧
      getGlobInstByIdx storeC3 0 sentinelOnlySM = none ∧
      getElemInstByIdx storeC3 0 sentinelOnlySM = none ∧
      getDataInstByIdx storeC3 0 sentinelOnlySM = none) :=
  ⟨rfl, claim_C3_sentinel_lookups sentinelOnlySM rfl storeC3 0⟩

/-- Claim C6: for a native callee, enterFunction pushes one zero-initialized
operand value per declared local (count copies per declaration, typed by the
declared value type), then pushes a boundary label with entry arity 0, exit
arity equal to the result count, continuation backPos minus one, and no
loop-body PC, and returns the PC of the first instruction of the callee
body. -/
theorem claim_C6_native_entry (store : StoreManager) (ft : FuncType)
    (ma : Nat) (ds : List (Nat × ValType)) (body : Int) (bp : Int) (tl : Bool)
    (es : ExecutorState) :
    enterFunction store ⟨ft, ma, FuncKind.native ds body⟩ bp tl es =
      ({ es with
          stackMgr :=
            { valueStack := (localZeros ds).reverse ++ es.stackMgr.valueStack,
              labelStack :=
                { arityEntry := 0, arityExit := ft.results.length,
                  target := bp - 1, loopCont := none,
                  savedValHeight :=
                    (localZeros ds).length + es.stackMgr.valueStack.length } ::
                  es.stackMgr.labelStack,
              frameStack :=
                (pushFrame ma ft.params.length ft.results.length tl
                    es.stackMgr).frameStack } },
       Except.ok body) := by
  simp only [enterFunction, pushLocals_eq, pushLabel, pushLabel_valueStack,
    pushFrame_valueStack, pushFrame_labelStack, Nat.sub_zero,
    List.length_append, List.length_reverse]

/-- Claim C2: if a metering collector is attached and charging the host cost
fails, enterFunction returns the CostLimitExceeded trap, the operand stack is
exactly as before the call, and the host callable is never invoked (the
outcome is identical for every host callable with the same declared cost). -/
theorem claim_C2_metering_atomicity (store : StoreManager) (ft : FuncType)
    (ma cost : Nat)
    (run0 : Option MemoryInstance → List ValVariant →
      Except ErrCode (List ValVariant))
    (bp : Int) (tl : Bool) (es : ExecutorState) (st : Statistics)
    (hst : es.stat = some st) (hch : addCost st cost = none) :
    (enterFunction store ⟨ft, ma, FuncKind.host ⟨cost, run0⟩⟩ bp tl es).2 =
      Except.error ErrCode.CostLimitExceeded ∧
    (enterFunction store ⟨ft, ma, FuncKind.host ⟨cost, run0⟩⟩ bp tl
        es).1.stackMgr.valueStack = es.stackMgr.valueStack ∧
    ∀ run1,
      enterFunction store ⟨ft, ma, FuncKind.host ⟨cost, run1⟩⟩ bp tl es =
        enterFunction store ⟨ft, ma, FuncKind.host ⟨cost, run0⟩⟩ bp tl es := by
  refine ⟨?_, ?_, ?_⟩
  · rw [enterFunction_host_chargefail store ft ma ⟨cost, run0⟩ bp tl es st hst hch]
  · rw [enterFunction_host_chargefail store ft ma ⟨cost, run0⟩ bp tl es st hst hch]
    simp [pushLabel_valueStack, pushFrame_valueStack]
  · intro run1
    rw [enterFunction_host_chargefail store ft ma ⟨cost, run0⟩ bp tl es st hst hch,
      enterFunction_host_chargefail store ft ma ⟨cost, run1⟩ bp tl es st hst hch]

theorem claim_C2_metering_atomicity_witness :
    addCost statC2 1 = none ∧
    (enterFunction emptyStore
        ⟨⟨[ValType.I32], [ValType.I32]⟩, 0,
          FuncKind.host ⟨1, fun _ _ => Except.ok [ValVariant.I32 0]⟩⟩ 4 false
        esC2).2 = Except.error ErrCode.CostLimitExceeded ∧
    (enterFunction emptyStore
        ⟨⟨[ValType.I32], [ValType.I32]⟩, 0,
          FuncKind.host ⟨1, fun _ _ => Except.ok [ValVariant.I32 0]⟩⟩ 4 false
        esC2).1.stackMgr.valueStack = [ValVariant.I32 7] := by
  refine ⟨by decide, ?_, ?_⟩
  · exact (claim_C2_metering_atomicity emptyStore ⟨[ValType.I32], [ValType.I32]⟩
      0 1 (fun _ _ => Except.ok [ValVariant.I32 0]) 4 false esC2 statC2 rfl
      (by decide)).1
  · exact (claim_C2_metering_atomicity emptyStore ⟨[ValType.I32], [ValType.I32]⟩
      0 1 (fun _ _ => Except.ok [ValVariant.I32 0]) 4 false esC2 statC2 rfl
      (by decide)).2.1

/-- Claim C4 (amended: restricted to non-tail calls): for a non-tail host
callee whose charge and callable succeed, enterFunction pops exactly the
declared number of parameters into the argument vector in call order, invokes
the host callable with the memory handle looked up from the new frame (which
may be none), pushes each returned value in order, restores the label and
frame stacks, and returns the caller-supplied return PC recorded by the
popped frame. -/
theorem claim_C4_host_entry
    (store : StoreManager) (ft : FuncType) (ma : Nat) (hf : HostFuncT)
    (bp : Int) (es : ExecutorState) (stat1 : Option Statistics)
    (rets : List ValVariant)
    (hch : chargeHost es.stat hf.cost = Except.ok stat1)
    (hrun : hf.run
        (getMemInstByIdx store 0
          (pushLabel 0 ft.results.length bp none
            (pushFrame ma ft.params.length ft.results.length false es.stackMgr)))
        ((es.stackMgr.valueStack.take ft.params.length).reverse) =
      Except.ok rets)
    (hr : rets.length = ft.results.length) :
    enterFunction store ⟨ft, ma, FuncKind.host hf⟩ bp false es =
      ({ es with
          stackMgr :=
            { valueStack :=
                rets.reverse ++ es.stackMgr.valueStack.drop ft.params.length,
              labelStack := es.stackMgr.labelStack,
              frameStack := es.stackMgr.frameStack },
          stat := restoreWasmTimer stat1 },
       Except.ok bp) :=
  enterFunction_host_ok store ft ma hf bp es stat1 rets hch hrun hr

/-- Counterexample to claim C4 as stated: a successful tail call of a host
callee returns the continuation of the caller boundary label (99), not the
caller-supplied return PC (5). -/
theorem claim_C4_counterexample :
    (enterFunction emptyStore fnC4x 5 true esC4x).2 = Except.ok 99 ∧
    (99 : Int) ≠ 5 :=
  ⟨rfl, by decide⟩

theorem claim_C4_host_entry_witness :
    enterFunction emptyStore fnC4 9 false esC4 =
      ({ esC4 with
          stackMgr :=
            { valueStack := [ValVariant.I32 12], labelStack := [],
              frameStack := [sentinelFrame] } },
       Except.ok 9) :=
  claim_C4_host_entry emptyStore ⟨[ValType.I32, ValType.I32], [ValType.I32]⟩ 0
    ⟨0, fun _ _ => Except.ok [ValVariant.I32 12]⟩ 9 esC4 none
    [ValVariant.I32 12] rfl rfl rfl

/-- Claim C1 (amended: restricted to non-tail calls): for every successful
non-tail enterFunction on a host callee (whose callable fills exactly the
declared number of results) or on a compiled callee, the operand-stack height
afterwards equals the height before minus the parameter count plus the result
count, and the label-stack height is unchanged. -/
theorem claim_C1_frame_balance :
    (∀ (store : StoreManager) (ft : FuncType) (ma : Nat) (hf : HostFuncT)
        (bp : Int) (es : ExecutorState) (pc : Int),
      (∀ mem args rets, hf.run mem args = Except.ok rets →
        rets.length = ft.results.length) →
      (enterFunction store ⟨ft, ma, FuncKind.host hf⟩ bp false es).2 =
        Except.ok pc →
      (enterFunction store ⟨ft, ma, FuncKind.host hf⟩ bp false
          es).1.stackMgr.valueStack.length =
        es.stackMgr.valueStack.length - ft.params.length +
          ft.results.length ∧
      (enterFunction store ⟨ft, ma, FuncKind.host hf⟩ bp false
          es).1.stackMgr.labelStack.length =
        es.stackMgr.labelStack.length) ∧
    (∀ (store : StoreManager) (ft : FuncType) (ma entry : Nat)
        (wrapper : ExecContext → Nat → List ValVariant →
          ErrCode × (Nat → ValVariant)) (bp : Int) (es : ExecutorState)
        (pc : Int),
      (enterFunction store ⟨ft, ma, FuncKind.compiled entry wrapper⟩ bp false
          es).2 = Except.ok pc →
      (enterFunction store ⟨ft, ma, FuncKind.compiled entry wrapper⟩ bp false
          es).1.stackMgr.valueStack.length =
        es.stackMgr.valueStack.length - ft.params.length +
          ft.results.length ∧
      (enterFunction store ⟨ft, ma, FuncKind.compiled entry wrapper⟩ bp false
          es).1.stackMgr.labelStack.length =
        es.stackMgr.labelStack.length) := by
  constructor
  · intro store ft ma hf bp es pc hwell hsucc
    rcases hch : chargeHost es.stat hf.cost with e | stat1
    · rw [enterFunction_host_chargeErr store ft ma hf bp false es e hch]
        at hsucc
      simp at hsucc
    · rcases hrun : hf.run
          (getMemInstByIdx store 0
            (pushLabel 0 ft.results.length bp none
              (pushFrame ma ft.params.length ft.results.length false
                es.stackMgr)))
          ((es.stackMgr.valueStack.take ft.params.length).reverse)
        with e | rets
      · have h1 :=
          (enterFunction_host_err store ft ma hf bp false es stat1 e hch
            hrun).1
        rw [h1] at hsucc
        simp at hsucc
      · have hr := hwell _ _ _ hrun
        rw [enterFunction_host_ok store ft ma hf bp es stat1 rets hch hrun hr]
        constructor
        · simp [hr]
          omega
        · rfl
  · intro store ft ma entry wrapper bp es pc hsucc
    rcases hw : wrapper
        { memory := ((store.getModule ma).getD defaultModule).memoryPtr,
          globals := ((store.getModule ma).getD defaultModule).globalsPtr }
        entry ((es.stackMgr.valueStack.take ft.params.length).reverse)
      with ⟨c, f⟩
    by_cases hc : c = ErrCode.Success
    · subst hc
      rw [enterFunction_compiled_ok store ft ma entry wrapper bp es f hw]
      constructor
      · simp
        omega
      · rfl
    · have h1 :=
        (enterFunction_compiled_fault store ft ma entry wrapper bp false es c
          f hw hc).1
      rw [h1] at hsucc
      simp at hsucc

/-- Counterexample to claim C1 as stated: a successful tail call of a host
callee leaves the operand stack at the inherited saved height plus the result
count (here one value), not at height-before minus parameters plus results
(here two). -/
theorem claim_C1_counterexample :
    (enterFunction emptyStore fnC1x 5 true esC1x).2 = Except.ok 5 ∧
    (enterFunction emptyStore fnC1x 5 true
        esC1x).1.stackMgr.valueStack.length ≠
      esC1x.stackMgr.valueStack.length - fnC1x.funcType.params.length +
        fnC1x.funcType.results.length :=
  ⟨rfl, by decide⟩

theorem claim_C1_frame_balance_witness :
    ((enterFunction emptyStore
          ⟨⟨[ValType.I32], [ValType.I32]⟩, 0, FuncKind.host fnC1h⟩ 3 false
          esC1).1.stackMgr.valueStack.length =
        esC1.stackMgr.valueStack.length - 1 + 1 ∧
      (enterFunction emptyStore
          ⟨⟨[ValType.I32], [ValType.I32]⟩, 0, FuncKind.host fnC1h⟩ 3 false
          esC1).1.stackMgr.labelStack.length =
        esC1.stackMgr.labelStack.length) ∧
    ((enterFunction emptyStore
          ⟨⟨[], [ValType.I32]⟩, 0,
            FuncKind.compiled 0 (fun _ _ _ =>
              (ErrCode.Success, fun _ => ValVariant.I32 0))⟩ 3 false
          esC1).1.stackMgr.valueStack.length =
        esC1.stackMgr.valueStack.length - 0 + 1 ∧
      (enterFunction emptyStore
          ⟨⟨[], [ValType.I32]⟩, 0,
            FuncKind.compiled 0 (fun _ _ _ =>
              (ErrCode.Success, fun _ => ValVariant.I32 0))⟩ 3 false
          esC1).1.stackMgr.labelStack.length =
        esC1.stackMgr.labelStack.length) :=
  ⟨claim_C1_frame_balance.1 emptyStore ⟨[ValType.I32], [ValType.I32]⟩ 0 fnC1h
      3 esC1 3
      (fun mem args rets h => by injection h with h2; subst h2; rfl)
      rfl,
    claim_C1_frame_balance.2 emptyStore ⟨[], [ValType.I32]⟩ 0 0
      (fun _ _ _ => (ErrCode.Success, fun _ => ValVariant.I32 0)) 3 esC1 3
      rfl⟩

/-- Counterexample to claim C7 as stated: a host callable that fails with
MemoryOutOfBounds (an error different from Terminated) is surfaced as the
result of enterFunction, yet nothing is emitted to the log sink. -/
theorem claim_C7_counterexample :
    (enterFunction emptyStore fnC7x 4 false esC7x).2 =
      Except.error ErrCode.MemoryOutOfBounds ∧
    ErrCode.MemoryOutOfBounds ≠ ErrCode.Terminated ∧
    (enterFunction emptyStore fnC7x 4 false esC7x).1.log = [] :=
  ⟨rfl, by decide, rfl⟩

/-- Claim C7 (amended): errors returned by enterFunction are logged at ERROR
level before being returned, except Terminated from compiled code and except
host-callable errors other than ExecutionFailed, which are surfaced without
logging.  Concretely: a failing metering charge logs and returns
CostLimitExceeded; a failing host callable surfaces its error, logging it
exactly when it is ExecutionFailed; a compiled-code fault surfaces its
status, logging it exactly when it is not Terminated. -/
theorem claim_C7_error_logging :
    (∀ (store : StoreManager) (ft : FuncType) (ma : Nat) (hf : HostFuncT)
        (bp : Int) (tl : Bool) (es : ExecutorState) (st : Statistics),
      es.stat = some st → addCost st hf.cost = none →
      (enterFunction store ⟨ft, ma, FuncKind.host hf⟩ bp tl es).2 =
        Except.error ErrCode.CostLimitExceeded ∧
      (enterFunction store ⟨ft, ma, FuncKind.host hf⟩ bp tl es).1.log =
        ErrCode.CostLimitExceeded :: es.log) ∧
    (∀ (store : StoreManager) (ft : FuncType) (ma : Nat) (hf : HostFuncT)
        (bp : Int) (tl : Bool) (es : ExecutorState)
        (stat1 : Option Statistics) (e : ErrCode),
      chargeHost es.stat hf.cost = Except.ok stat1 →
      hf.run
          (getMemInstByIdx store 0
            (pushLabel 0 ft.results.length bp none
              (pushFrame ma ft.params.length ft.results.length tl
                es.stackMgr)))
          ((es.stackMgr.valueStack.take ft.params.length).reverse) =
        Except.error e →
      (enterFunction store ⟨ft, ma, FuncKind.host hf⟩ bp tl es).2 =
        Except.error e ∧
      (enterFunction store ⟨ft, ma, FuncKind.host hf⟩ bp tl es).1.log =
        (if e = ErrCode.ExecutionFailed then e :: es.log else es.log)) ∧
    (∀ (store : StoreManager) (ft : FuncType) (ma entry : Nat)
        (wrapper : ExecContext → Nat → List ValVariant →
          ErrCode × (Nat → ValVariant)) (bp : Int) (tl : Bool)
        (es : ExecutorState) (c : ErrCode) (f : Nat → ValVariant),
      wrapper
          { memory := ((store.getModule ma).getD defaultModule).memoryPtr,
            globals := ((store.getModule ma).getD defaultModule).globalsPtr }
          entry ((es.stackMgr.valueStack.take ft.params.length).reverse) =
        (c, f) →
      c ≠ ErrCode.Success →
      (enterFunction store ⟨ft, ma, FuncKind.compiled entry wrapper⟩ bp tl
          es).2 = Except.error c ∧
      (enterFunction store ⟨ft, ma, FuncKind.compiled entry wrapper⟩ bp tl
          es).1.log =
        (if c = ErrCode.Terminated then es.log else c :: es.log)) := by
  refine ⟨?_, ?_, ?_⟩
  · intro store ft ma hf bp tl es st hst hch
    rw [enterFunction_host_chargefail store ft ma hf bp tl es st hst hch]
    exact ⟨rfl, rfl⟩
  · intro store ft ma hf bp tl es stat1 e hch hrun
    exact enterFunction_host_err store ft ma hf bp tl es stat1 e hch hrun
  · intro store ft ma entry wrapper bp tl es c f hw hc
    obtain ⟨h1, h2, h3, h4⟩ :=
      enterFunction_compiled_fault store ft ma entry wrapper bp tl es c f hw
        hc
    exact ⟨h1, h2⟩

theorem claim_C7_error_logging_witness :
    ((enterFunction emptyStore
          ⟨⟨[ValType.I32], [ValType.I32]⟩, 0,
            FuncKind.host ⟨1, fun _ _ => Except.ok [ValVariant.I32 0]⟩⟩ 4
          false esC2).2 = Except.error ErrCode.CostLimitExceeded ∧
      (enterFunction emptyStore
          ⟨⟨[ValType.I32], [ValType.I32]⟩, 0,
            FuncKind.host ⟨1, fun _ _ => Except.ok [ValVariant.I32 0]⟩⟩ 4
          false esC2).1.log = [ErrCode.CostLimitExceeded]) ∧
    ((enterFunction emptyStore ⟨⟨[ValType.I32], []⟩, 0, FuncKind.host fnC7⟩ 4
          false esC7x).2 = Except.error ErrCode.ExecutionFailed ∧
      (enterFunction emptyStore ⟨⟨[ValType.I32], []⟩, 0, FuncKind.host fnC7⟩ 4
          false esC7x).1.log = [ErrCode.ExecutionFailed]) ∧
    ((enterFunction emptyStore
          ⟨⟨[], []⟩, 0, FuncKind.compiled 0 wrC7⟩ 4 false esC7x).2 =
        Except.error ErrCode.Unreachable ∧
      (enterFunction emptyStore
          ⟨⟨[], []⟩, 0, FuncKind.compiled 0 wrC7⟩ 4 false esC7x).1.log =
        [ErrCode.Unreachable]) :=
  ⟨claim_C7_error_logging.1 emptyStore ⟨[ValType.I32], [ValType.I32]⟩ 0
      ⟨1, fun _ _ => Except.ok [ValVariant.I32 0]⟩ 4 false esC2 statC2 rfl
      (by decide),
    claim_C7_error_logging.2.1 emptyStore ⟨[ValType.I32], []⟩ 0 fnC7 4 false
      esC7x none ErrCode.ExecutionFailed rfl rfl,
    claim_C7_error_logging.2.2 emptyStore ⟨[], []⟩ 0 0 wrC7 4 false esC7x
      ErrCode.Unreachable (fun _ => ValVariant.I32 0) rfl (by decide)⟩

/-- Claim C8: for a compiled callee, before the trampoline runs, the
execution-context memory-base and globals-array pointers are refreshed from
the module instance of the callee; every non-success fault status of the
protected trampoline invocation is returned as the trap, and it is logged
unless it is Terminated, which is surfaced silently. -/
theorem claim_C8_compiled_fault
    (store : StoreManager) (ft : FuncType) (ma entry : Nat)
    (wrapper : ExecContext → Nat → List ValVariant →
      ErrCode × (Nat → ValVariant))
    (bp : Int) (tl : Bool) (es : ExecutorState) (m : ModuleInstance)
    (c : ErrCode) (f : Nat → ValVariant)
    (hm : store.getModule ma = some m)
    (hw : wrapper { memory := m.memoryPtr, globals := m.globalsPtr } entry
        ((es.stackMgr.valueStack.take ft.params.length).reverse) = (c, f))
    (hc : c ≠ ErrCode.Success) :
    (enterFunction store ⟨ft, ma, FuncKind.compiled entry wrapper⟩ bp tl
        es).2 = Except.error c ∧
    (enterFunction store ⟨ft, ma, FuncKind.compiled entry wrapper⟩ bp tl
        es).1.executionContext =
      { memory := m.memoryPtr, globals := m.globalsPtr } ∧
    (enterFunction store ⟨ft, ma, FuncKind.compiled entry wrapper⟩ bp tl
        es).1.log =
      (if c = ErrCode.Terminated then es.log else c :: es.log) := by
  have hm2 : (store.getModule ma).getD defaultModule = m := by
    rw [hm]
    rfl
  have hw2 : wrapper
      { memory := ((store.getModule ma).getD defaultModule).memoryPtr,
        globals := ((store.getModule ma).getD defaultModule).globalsPtr }
      entry ((es.stackMgr.valueStack.take ft.params.length).reverse) =
      (c, f) := by
    rw [hm2]
    exact hw
  obtain ⟨h1, h2, h3, h4⟩ :=
    enterFunction_compiled_fault store ft ma entry wrapper bp tl es c f hw2 hc
  rw [hm2] at h3
  exact ⟨h1, h3, h2⟩

theorem claim_C8_compiled_fault_witness :
    (enterFunction storeC8 ⟨⟨[], []⟩, 0, FuncKind.compiled 0 wrC8⟩ 4 false
        esC8).2 = Except.error ErrCode.MemoryOutOfBounds ∧
    (enterFunction storeC8 ⟨⟨[], []⟩, 0, FuncKind.compiled 0 wrC8⟩ 4 false
        esC8).1.executionContext = { memory := some 77, globals := [4, 5] } ∧
    (enterFunction storeC8 ⟨⟨[], []⟩, 0, FuncKind.compiled 0 wrC8⟩ 4 false
        esC8).1.log = [ErrCode.MemoryOutOfBounds] :=
  claim_C8_compiled_fault storeC8 ⟨[], []⟩ 0 0 wrC8 4 false esC8 modC8
    ErrCode.MemoryOutOfBounds (fun _ => ValVariant.I32 0) rfl rfl (by decide)

/-- Claim C5: branchToLabel pops exactly depth plus one labels and yields the
continuation PC of the popped (deepest) target label; when the target label
guards a loop, it additionally pushes a fresh label whose entry and exit
arity both equal the entry arity of the loop block, whose continuation is the
post-pop PC, and whose loop-body PC is the stored one, and yields that
loop-body PC instead. -/
theorem claim_C5_branch_to_label (store : StoreManager) (code : Int → Instr)
    (cnt : Nat) (sm : StackManager) (L : Label)
    (hget : sm.labelStack.get? cnt = some L) :
    (popLabel (cnt + 1) sm).1 = L.target ∧
    (popLabel (cnt + 1) sm).2.labelStack = sm.labelStack.drop (cnt + 1) ∧
    (match L.loopCont with
     | none =>
       branchToLabel store code cnt sm = ((popLabel (cnt + 1) sm).2, L.target)
     | some q =>
       branchToLabel store code cnt sm =
         (pushLabel
           (getBlockArity store (popLabel (cnt + 1) sm).2 (code q).blockType).1
           (getBlockArity store (popLabel (cnt + 1) sm).2 (code q).blockType).1
           L.target (some q) (popLabel (cnt + 1) sm).2,
          q)) := by
  have hl : (sm.labelStack.get? (cnt + 1 - 1)).getD defaultLabel = L := by
    rw [Nat.add_sub_cancel, hget]
    rfl
  have hp1 : (popLabel (cnt + 1) sm).1 = L.target := by
    simp only [popLabel, hl]
  have hp2 : (popLabel (cnt + 1) sm).2.labelStack =
      sm.labelStack.drop (cnt + 1) := by
    simp only [popLabel]
  refine ⟨hp1, hp2, ?_⟩
  have hgl : getLabelWithCount cnt sm = L := by
    simp only [getLabelWithCount]
    rw [hget]
    rfl
  rcases hq : L.loopCont with _ | q
  · simp only [branchToLabel, hgl, hq]
    rw [hp1]
  · simp only [branchToLabel, hgl, hq]
    rw [hp1]

theorem claim_C5_branch_to_label_witness :
    (popLabel 1 smC5).1 = 7 ∧
    (popLabel 1 smC5).2.labelStack = [] ∧
    branchToLabel storeC5 codeC5 0 smC5 =
      (pushLabel 2 2 7 (some 3) (popLabel 1 smC5).2, 3) :=
  claim_C5_branch_to_label storeC5 codeC5 0 smC5 (Label.mk 2 2 7 (some 3) 1)
    rfl

/-- Claim C9: in command mode, a successful run or a run failing with exactly
the Terminated error exits with the configured WASI exit code, and every
other error exits with EXIT_FAILURE. -/
theorem claim_C9_command_exit (r : Except ErrCode (List ValVariant))
    (w : Nat) :
    (((∃ vs, r = Except.ok vs) ∨ r = Except.error ErrCode.Terminated) →
      commandModeExitCode r w = w) ∧
    (∀ e, r = Except.error e → e ≠ ErrCode.Terminated →
      commandModeExitCode r w = EXIT_FAILURE) := by
  constructor
  · rintro (⟨vs, rfl⟩ | rfl) <;> simp [commandModeExitCode]
  · rintro e rfl he
    simp [commandModeExitCode, he]

theorem claim_C9_command_exit_witness :
    commandModeExitCode (Except.ok [ValVariant.I32 0]) 42 = 42 ∧
    commandModeExitCode (Except.error ErrCode.Terminated) 42 = 42 ∧
    commandModeExitCode (Except.error ErrCode.Unreachable) 42 = EXIT_FAILURE :=
  ⟨(claim_C9_command_exit (Except.ok [ValVariant.I32 0]) 42).1
      (Or.inl ⟨[ValVariant.I32 0], rfl⟩),
    (claim_C9_command_exit (Except.error ErrCode.Terminated) 42).1 (Or.inr rfl),
    (claim_C9_command_exit (Except.error ErrCode.Unreachable) 42).2
      ErrCode.Unreachable rfl (by decide)⟩

theorem map_getD_range'_eq_map_drop {α β : Type} (g : α → β) (d : α) :
    ∀ (n : Nat) (as : List α) (k : Nat), as.length - k = n →
      (List.range' k n).map (fun i => g (as.getD i d)) = (as.drop k).map g := by
  intro n
  induction n with
  | zero =>
    intro as k h
    have hk : as.length ≤ k := Nat.sub_eq_zero_iff_le.mp h
    rw [List.drop_eq_nil_of_le hk]
    rfl
  | succ n ih =>
    intro as k h
    have hk : k < as.length := by omega
    simp only [List.range'_succ, List.map_cons]
    rw [ih as (k + 1) (by omega), List.drop_eq_getElem_cons hk,
      List.map_cons, List.getD_eq_getElem as d hk]

/-- The second reactor-mode loop reads exactly the arguments beyond the
declared parameter count, in order. -/
theorem reactorExtra_eq (stoll : String → Int) (ps : List ValType)
    (args : List String) :
    reactorExtra stoll ps args =
      (args.drop (ps.length + 1)).map
        (fun s => (ValVariant.I64 (toU64 (stoll s)), ValType.F64)) :=
  map_getD_range'_eq_map_drop
    (fun s => (ValVariant.I64 (toU64 (stoll s)), ValType.F64)) ""
    (args.length - (ps.length + 1)) args (ps.length + 1) rfl

/-- Claim C10: in reactor mode, every command-line argument at a position
beyond the declared parameter count of the target function is parsed with
stoll, the signed 64-bit integer parse, yet the value-type appended for it to
the argument-type vector is F64 rather than an integer type. -/
theorem claim_C10_reactor_extra_args (stol stoll : String → Int)
    (stof stod : String → Nat) (ps : List ValType) (args : List String) :
    (buildReactorArgs stol stoll stof stod ps args).1 =
      (reactorFirst stol stoll stof stod ps args).map Prod.fst ++
        (args.drop (ps.length + 1)).map
          (fun s => ValVariant.I64 (toU64 (stoll s))) ∧
    (buildReactorArgs stol stoll stof stod ps args).2 =
      (reactorFirst stol stoll stof stod ps args).map Prod.snd ++
        List.replicate (args.length - (ps.length + 1)) ValType.F64 := by
  have he := reactorExtra_eq stoll ps args
  have hfst : ∀ l : List String,
      (l.map (fun s => (ValVariant.I64 (toU64 (stoll s)), ValType.F64))).map
          Prod.fst =
        l.map (fun s => ValVariant.I64 (toU64 (stoll s))) := by
    intro l
    rw [List.map_map]
    rfl
  have hsnd : ∀ l : List String,
      (l.map (fun s => (ValVariant.I64 (toU64 (stoll s)), ValType.F64))).map
          Prod.snd =
        List.replicate l.length ValType.F64 := by
    intro l
    rw [List.map_map]
    exact List.map_const' l ValType.F64
  constructor
  · simp only [buildReactorArgs, List.map_append]
    rw [he, hfst]
  · simp only [buildReactorArgs, List.map_append]
    rw [he, hsnd, List.length_drop]

end WasmEdge
